import Mathlib

/-!
Verification of the core of the scentaustralia lead-generation backend.

Embedded components:
* validator (`app/services/data_extractor.py`, class `DataValidator`),
* fetch engine and scrape orchestrator (`app/services/scraper_service.py`),
* job manager (`app/services/scraping_job_manager.py`),
* the quota prologue of the source scrapers (`scraper_service.py`,
  `app/services/web_scraper.py`).

Modelling conventions: Python floats are rationals (every constant in the
source is a short decimal, and the claims only concern exact comparisons);
datetimes are integer timestamps in seconds; dicts keyed by strings are
association lists; network fetches and HTML parsing are oracles passed in
as function arguments; fallible Python code (exceptions) returns `Option`
or `Except`.  All strings in the source are ASCII, so `String.toLower`,
`Char.isAlpha` etc. agree with their Python counterparts.
-/

/-- Association-list lookup, modelling a Python dict read (`d[k]` / `d.get(k)`). -/
def lookupD {α : Type} (l : List (String × α)) (k : String) : Option α :=
  (l.find? (fun p => p.1 == k)).map (fun p => p.2)

/-- Association-list write, modelling a Python dict assignment `d[k] = v`
(replaces in place if the key exists, appends otherwise, preserving
insertion order as CPython dicts do). -/
def setKey {α : Type} : List (String × α) → String → α → List (String × α)
  | [], k, v => [(k, v)]
  | (k', v') :: rest, k, v =>
    if k' = k then (k, v) :: rest else (k', v') :: setKey rest k v

/-- Association-list delete, modelling `del d[k]`. -/
def eraseKey {α : Type} (l : List (String × α)) (k : String) : List (String × α) :=
  l.filter (fun p => p.1 != k)

/-! ## Python string primitives on character lists

Python strings are modelled as their character lists (`String.data`); the
string methods the validator uses are given structural-recursive definitions
so that concrete inputs evaluate inside the kernel. -/

/-- Python `s.startswith(p)` on character lists. -/
def isPrefixL : List Char → List Char → Bool
  | [], _ => true
  | _ :: _, [] => false
  | a :: p, b :: s => a == b && isPrefixL p s

/-- Python substring test `sub in s` on character lists. -/
def containsL : List Char → List Char → Bool
  | [], sub => isPrefixL sub []
  | c :: rest, sub => isPrefixL sub (c :: rest) || containsL rest sub

/-- Python `s.split(sep)` for a one-character separator: every occurrence
separates, adjacent separators produce empty parts. -/
def splitOnCharL (sep : Char) : List Char → List (List Char)
  | [] => [[]]
  | c :: rest =>
    if c == sep then [] :: splitOnCharL sep rest
    else
      match splitOnCharL sep rest with
      | h :: t => (c :: h) :: t
      | [] => [[c]]

/-- Python `s.lower()` on ASCII text. -/
def lowerL (cs : List Char) : List Char := cs.map Char.toLower

/-- Whether the string ends with a newline character. -/
def endsWithNl (cs : List Char) : Bool :=
  match cs.getLast? with
  | some c => c == '\n'
  | none => false

/-- Helper for `len(s.split())`: count maximal nonempty runs of
non-whitespace characters; `inWord` records whether a run is open. -/
def wordCountAux (sp : Char → Bool) : List Char → Bool → ℕ
  | [], _ => 0
  | c :: rest, inWord =>
    if sp c then wordCountAux sp rest false
    else (if inWord then 0 else 1) + wordCountAux sp rest true

/-! ## Regex character classes and hand-compiled matchers

The validator uses three regexes (`data_extractor.py` lines 208, 275, 323).
Each is hand-compiled to an executable matcher below; the existential
backtracking semantics of the regex engine is rendered as an explicit
search over split positions. -/

/-- Class `[a-zA-Z0-9._%+-]` (local part of the email regex). -/
def emailLocalChar (c : Char) : Bool :=
  c.isAlphanum || c = '.' || c = '_' || c = '%' || c = '+' || c = '-'

/-- Class `[a-zA-Z0-9.-]` (domain part of the email regex). -/
def emailDomainChar (c : Char) : Bool :=
  c.isAlphanum || c = '.' || c = '-'

/-- Python `\s` on ASCII text: space, tab, newline, carriage return,
vertical tab, form feed. -/
def pySpace (c : Char) : Bool :=
  c = ' ' || c = '\t' || c = '\n' || c = '\r' || c = '\x0b' || c = '\x0c'

/-- Python regex `\w` on ASCII text: alphanumeric or underscore. -/
def regexWordChar (c : Char) : Bool := c.isAlphanum || c = '_'

/-- Whether the character at index `i` of `cs` exists and is a `\w` character. -/
def wordAt (cs : List Char) (i : Nat) : Bool :=
  match cs[i]? with
  | some c => regexWordChar c
  | none => false

/-- Core of `re.match` for `^[a-zA-Z0-9._%+-]+@[a-zA-Z0-9.-]+\.[a-zA-Z]{2,}$`
against the whole string (the end-of-string newline allowance of `$` is added
by `pyFullMatch`).  Neither character class contains `@`, so a match forces
exactly one `@`; on the domain side, the alphabetic tail of the pattern cannot
contain a dot, so the pattern matches the domain iff splitting at its *last*
dot gives a nonempty class prefix and an alphabetic tail of length ≥ 2. -/
def matchEmailCore (cs : List Char) : Bool :=
  match splitOnCharL '@' cs with
  | [l, d] =>
    let parts := splitOnCharL '.' d
    let tld := parts.getLastD []
    (l != ([] : List Char)) && l.all emailLocalChar &&
      d.all emailDomainChar && decide (2 ≤ parts.length) &&
      decide (2 ≤ tld.length) && tld.all Char.isAlpha &&
      decide (tld.length + 2 ≤ d.length)
  | _ => false

/-- Python `re.match` of an `^...$` pattern whose whole-string matcher is `m`:
in non-multiline mode `$` also matches just before a single trailing newline. -/
def pyFullMatch (m : List Char → Bool) (cs : List Char) : Bool :=
  m cs || (endsWithNl cs && m cs.dropLast)

/-- Class `[-a-zA-Z0-9@:%._\+~#=]` of the URL regex. -/
def urlClassA (c : Char) : Bool :=
  c.isAlphanum || c = '-' || c = '@' || c = ':' || c = '%' || c = '.' ||
    c = '_' || c = '+' || c = '~' || c = '#' || c = '='

/-- Class `[a-zA-Z0-9()]` of the URL regex. -/
def urlClassB (c : Char) : Bool := c.isAlphanum || c = '(' || c = ')'

/-- Class `[-a-zA-Z0-9()@:%_\+.~#?&/=]` of the URL regex. -/
def urlClassC (c : Char) : Bool :=
  c.isAlphanum || c = '-' || c = '(' || c = ')' || c = '@' || c = ':' ||
    c = '%' || c = '_' || c = '+' || c = '.' || c = '~' || c = '#' ||
    c = '?' || c = '&' || c = '/' || c = '='

/-- Matcher for the part of the URL regex after the scheme and the optional
`www.`: `[-a-zA-Z0-9@:%._\+~#=]{1,256}\.[a-zA-Z0-9()]{1,6}\b[-a-zA-Z0-9()@:%_\+.~#?&/=]*`
anchored on both sides.  The regex engine's backtracking over the two counted
repetitions is an existential search over the split positions `i` and `j`;
`\b` holds between the last `{1,6}` character and the following character
(or end of input) iff exactly one side is a `\w` character. -/
def matchUrlTail (cs : List Char) : Bool :=
  (List.range' 1 256).any fun i =>
    decide (i ≤ cs.length) && (cs.take i).all urlClassA &&
      (match cs.drop i with
       | '.' :: rest =>
         (List.range' 1 6).any fun j =>
           decide (j ≤ rest.length) && (rest.take j).all urlClassB &&
             (wordAt rest (j - 1) != wordAt rest j) &&
             (rest.drop j).all urlClassC
       | _ => false)

/-- Core of `re.match` for
`^https?://(?:www\.)?[-a-zA-Z0-9@:%._\+~#=]{1,256}\.[a-zA-Z0-9()]{1,6}\b(?:[-a-zA-Z0-9()@:%_\+.~#?&/=]*)$`
against the whole string: the optional `www.` group makes the regex match iff
the tail matches with or without the four characters consumed. -/
def matchUrlCore (s : List Char) : Bool :=
  let afterScheme : Option (List Char) :=
    if isPrefixL "https://".data s then some (s.drop 8)
    else if isPrefixL "http://".data s then some (s.drop 7)
    else none
  match afterScheme with
  | none => false
  | some cs =>
    matchUrlTail cs ||
      (match cs with
       | 'w' :: 'w' :: 'w' :: '.' :: rest => matchUrlTail rest
       | _ => false)

/-- One match attempt of `re.search(r'\b[0-9]{4}\s+[A-Z]{2}\b', s)` starting at
index `i`: `\b` before a digit demands a non-`\w` (or absent) predecessor; the
`\s+` must consume the whole whitespace run because the following `[A-Z]` is
not whitespace; the trailing `\b` after an uppercase letter demands a
non-`\w` (or absent) successor. -/
def postcodeAt (cs : List Char) (i : Nat) : Bool :=
  (match i with
   | 0 => true
   | Nat.succ i0 => !(wordAt cs i0)) &&
  (List.range 4).all (fun t =>
    match cs[i + t]? with
    | some c => c.isDigit
    | none => false) &&
  (let afterDigits := cs.drop (i + 4)
   let run := afterDigits.takeWhile pySpace
   let rest := afterDigits.drop run.length
   decide (1 ≤ run.length) &&
     (match rest with
      | a :: b :: tail =>
        a.isUpper && b.isUpper &&
          (match tail with
           | [] => true
           | c :: _ => !(regexWordChar c))
      | _ => false))

/-- `re.search` of the Australian postcode pattern: a match may start anywhere. -/
def postcodeSearch (cs : List Char) : Bool :=
  (List.range cs.length).any (fun i => postcodeAt cs i)

/-! ## Per-field validators (`DataValidator`, data_extractor.py lines 190-331) -/

/-- The placeholder prefixes checked by `validate_email` (line 214). -/
def suspiciousStarts : List String := ["test@", "admin@", "noreply@", "donotreply@"]

/-- The free-mail domains checked by `validate_email` (line 223). -/
def personalDomains : List String := ["gmail.com", "yahoo.com", "hotmail.com", "outlook.com"]

/-- Python `email.split('@')[1].lower()` (total: empty string when no `@`). -/
def emailDomain (email : List Char) : List Char :=
  lowerL ((splitOnCharL '@' email).getD 1 [])

/-- Python `s.count('.')` (single-character needle, counts occurrences). -/
def countDots (s : List Char) : Nat := s.count '.'

/-- `DataValidator.validate_email` (data_extractor.py lines 197-231). -/
def validate_email (email : String) : Bool × ℚ :=
  if email = "" then (false, 0)
  else if !(pyFullMatch matchEmailCore email.data) then (false, 0)
  else if suspiciousStarts.any (fun p => isPrefixL p.data (lowerL email.data)) then (true, 1/2)
  else
    let domain := emailDomain email.data
    if personalDomains.any (fun d => domain == d.data) then (true, 3/5)
    else if 1 ≤ countDots domain then (true, 19/20)
    else (true, 4/5)

/-- The separator class `[\s\-\(\)\.+]` stripped by `validate_phone` (line 244). -/
def phoneSepChar (c : Char) : Bool :=
  pySpace c || c = '-' || c = '(' || c = ')' || c = '.' || c = '+'

/-- `DataValidator.validate_phone` with the default country `'AU'`
(data_extractor.py lines 233-263). -/
def validate_phone (phone : String) : Bool × ℚ :=
  if phone = "" then (false, 0)
  else
    let cleaned := phone.data.filter (fun c => !(phoneSepChar c))
    if cleaned.length < 9 || 12 < cleaned.length then (false, 0)
    else if isPrefixL "61".data cleaned then (true, 9/10)
    else if isPrefixL "0".data cleaned then (true, 19/20)
    else if isPrefixL "1".data cleaned then (true, 17/20)
    else (false, 0)

/-- `DataValidator.validate_website` (data_extractor.py lines 265-280). -/
def validate_website (url : String) : Bool × ℚ :=
  if url = "" then (false, 0)
  else if pyFullMatch matchUrlCore url.data then (true, 9/10)
  else (false, 0)

/-- The platform keywords rejected by `validate_company_name` (line 297). -/
def badNameWords : List String := ["linkedin", "facebook", "twitter", "yelp", "wikipedia"]

/-- Python `s.count(c)` for a single character. -/
def countChar (s : String) (c : Char) : Nat := s.data.count c

/-- `DataValidator.validate_company_name` (data_extractor.py lines 282-305). -/
def validate_company_name (name : String) : Bool × ℚ :=
  if name = "" then (false, 0)
  else if name.data.length < 2 || 200 < name.data.length then (false, 0)
  else if badNameWords.any (fun w => containsL (lowerL name.data) w.data) then (false, 1/10)
  else if 10 < countChar name ' ' || 2 < countChar name '!' then (false, 1/5)
  else (true, 4/5)

/-- Python `len(s.split())`: split on whitespace runs, dropping empty parts. -/
def wordCount (s : String) : Nat := wordCountAux pySpace s.data false

/-- `DataValidator.validate_address` with the default country `'AU'`
(data_extractor.py lines 307-331). -/
def validate_address (address : String) : Bool × ℚ :=
  if address = "" then (false, 0)
  else if address.data.length < 5 || 500 < address.data.length then (false, 0)
  else if postcodeSearch address.data then (true, 19/20)
  else if address.data.any Char.isDigit && decide (3 ≤ wordCount address) then (true, 7/10)
  else (true, 1/2)

/-! ## Whole-record validation (`DataValidator.validate_lead`, lines 333-417) -/

/-- The raw lead dict as far as `validate_lead` reads it; a missing key and an
explicit `None` both map to `none` (both are falsy under `lead_data.get`). -/
structure RawLead where
  company_name : Option String := none
  email : Option String := none
  phone : Option String := none
  website : Option String := none
  address : Option String := none
deriving DecidableEq

/-- Python truthiness of `lead_data.get(field)`: present and nonempty. -/
def truthy (o : Option String) : Bool :=
  match o with
  | none => false
  | some s => s != ""

/-- The string value of a field that was found truthy. -/
def strOf (o : Option String) : String := o.getD ""

/-- The accumulator threaded through `validate_lead`'s field blocks:
the local variables `errors`, `warnings`, `confidence`, `cleaned_data`. -/
structure VState where
  errors : List String
  warnings : List String
  confidence : ℚ
  cleaned : RawLead
deriving DecidableEq

/-- The result dataclass `ValidationResult` (data_extractor.py lines 16-24). -/
structure ValidationResult where
  is_valid : Bool
  confidence : ℚ
  errors : List String
  warnings : List String
  cleaned_data : RawLead
deriving DecidableEq

/-- The company-name block of `validate_lead` (lines 348-358). -/
def companyStep (lead : RawLead) (st : VState) : VState :=
  if !(truthy lead.company_name) then
    { st with errors := st.errors ++ ["Company name is required"],
              confidence := st.confidence * (1/2) }
  else
    let vc := validate_company_name (strOf lead.company_name)
    if !vc.1 then
      { st with errors := st.errors ++ ["Invalid company name: " ++ strOf lead.company_name],
                confidence := st.confidence * vc.2 }
    else
      { st with confidence := st.confidence * vc.2 }

/-- The email block of `validate_lead` (lines 360-371). -/
def emailStep (lead : RawLead) (st : VState) : VState :=
  if truthy lead.email then
    let vc := validate_email (strOf lead.email)
    if !vc.1 then
      { st with errors := st.errors ++ ["Invalid email: " ++ strOf lead.email],
                cleaned := { st.cleaned with email := none },
                confidence := st.confidence * (7/10) }
    else
      { st with confidence := st.confidence * vc.2 }
  else
    { st with warnings := st.warnings ++ ["No email found"],
              confidence := st.confidence * (4/5) }

/-- The phone block of `validate_lead` (lines 373-384). -/
def phoneStep (lead : RawLead) (st : VState) : VState :=
  if truthy lead.phone then
    let vc := validate_phone (strOf lead.phone)
    if !vc.1 then
      { st with warnings := st.warnings ++ ["Invalid phone: " ++ strOf lead.phone],
                cleaned := { st.cleaned with phone := none },
                confidence := st.confidence * (4/5) }
    else
      { st with confidence := st.confidence * vc.2 }
  else
    { st with warnings := st.warnings ++ ["No phone found"],
              confidence := st.confidence * (9/10) }

/-- The website block of `validate_lead` (lines 386-394); note there is no
penalty for an absent website. -/
def websiteStep (lead : RawLead) (st : VState) : VState :=
  if truthy lead.website then
    let vc := validate_website (strOf lead.website)
    if !vc.1 then
      { st with warnings := st.warnings ++ ["Invalid website: " ++ strOf lead.website],
                cleaned := { st.cleaned with website := none },
                confidence := st.confidence * (17/20) }
    else
      { st with confidence := st.confidence * vc.2 }
  else st

/-- The address block of `validate_lead` (lines 396-404). -/
def addressStep (lead : RawLead) (st : VState) : VState :=
  if truthy lead.address then
    let vc := validate_address (strOf lead.address)
    if !vc.1 then
      { st with warnings := st.warnings ++ ["Invalid address: " ++ strOf lead.address],
                cleaned := { st.cleaned with address := none },
                confidence := st.confidence * (17/20) }
    else
      { st with confidence := st.confidence * vc.2 }
  else st

/-- The field blocks of `validate_lead` in source order, starting from
`errors = []`, `warnings = []`, `confidence = 100.0`,
`cleaned_data = lead_data.copy()`. -/
def validateLeadCore (lead : RawLead) : VState :=
  addressStep lead (websiteStep lead (phoneStep lead (emailStep lead
    (companyStep lead ⟨[], [], 100, lead⟩))))

/-- The final lines of `validate_lead` (406-417): clamp the confidence to
`[0, 100]` and derive `is_valid`. -/
def finalizeV (st : VState) : ValidationResult :=
  let conf := max 0 (min 100 st.confidence)
  { is_valid := st.errors.isEmpty && decide ((30 : ℚ) < conf),
    confidence := conf,
    errors := st.errors,
    warnings := st.warnings,
    cleaned_data := st.cleaned }

/-- `DataValidator.validate_lead` (data_extractor.py lines 333-417). -/
def validate_lead (lead : RawLead) : ValidationResult :=
  finalizeV (validateLeadCore lead)

/-- The email classification exactly as claim C9 words it, in the order the
sentence reads: non-matching strings are invalid with confidence 0; a
placeholder prefix gives 0.5; a free-mail domain gives 0.6; any other domain
with at least one dot gives 0.95; the remaining valid case gets 0.8.
(Spec-side definition, for comparison with `validate_email`.) -/
def emailSpecDescription (email : String) : Bool × ℚ :=
  if !(pyFullMatch matchEmailCore email.data) then (false, 0)
  else if suspiciousStarts.any (fun p => isPrefixL p.data (lowerL email.data)) then (true, 1/2)
  else if personalDomains.any (fun d => emailDomain email.data == d.data) then (true, 3/5)
  else if 1 ≤ countDots (emailDomain email.data) then (true, 19/20)
  else (true, 4/5)

/-! ## Fetch engine (`ScraperService`, scraper_service.py lines 53-226)

The cache directory is modelled as an association list keyed by URL (the
cache key `str(hash(url)) + '.json'` is an injective function of the URL up
to hash collisions, which are not modelled); a file's `st_mtime` is the
entry's write timestamp.  `urlparse(url).netloc` is modelled as the `domain`
field of a structured URL. -/

/-- A URL together with its host part (`urlparse(url).netloc`). -/
structure Url where
  full : String
  domain : String
deriving DecidableEq

/-- One cached response file: the stored HTML and the file's mtime. -/
structure CacheEntry where
  html : String
  mtime : ℤ
deriving DecidableEq

/-- Python `(now - mtime).seconds` for timestamps in seconds: the `seconds`
component of a `timedelta` is the total difference modulo 86400 (the day part
goes to `.days`), hence always in `[0, 86400)`. -/
def pyDeltaSeconds (now mtime : ℤ) : ℤ := (now - mtime) % 86400

/-- `ScraperService._get_cached_response` (scraper_service.py lines 129-148):
look the URL up; treat the entry as expired — unlinking it — when
`(datetime.now() - mtime).seconds > 86400`, else return its HTML.
Returns the response and the cache after any eviction. -/
def getCachedResponse (cache : List (String × CacheEntry)) (now : ℤ)
    (url : String) : Option String × List (String × CacheEntry) :=
  match lookupD cache url with
  | none => (none, cache)
  | some e =>
    if pyDeltaSeconds now e.mtime > 86400 then (none, eraseKey cache url)
    else (some e.html, cache)

/-- `ScraperService._cache_response` (lines 150-157): write the HTML under the
URL's key with the current time as mtime. -/
def cacheResponse (cache : List (String × CacheEntry)) (now : ℤ)
    (url : String) (html : String) : List (String × CacheEntry) :=
  setKey cache url ⟨html, now⟩

/-- `ScraperService._is_blocked` (lines 98-113).  A blocked-domain record is
`(block_time, count)`; the domain is blocked until
`block_time + timedelta(minutes=30 + count * 10)`, i.e. `(30 + count*10) * 60`
seconds; past that instant the record is deleted and the check reports
unblocked.  Returns the verdict and the possibly-updated dict. -/
def isBlockedCheck (bl : List (String × ℤ × ℕ)) (now : ℤ)
    (domain : String) : Bool × List (String × ℤ × ℕ) :=
  match lookupD bl domain with
  | none => (false, bl)
  | some tc =>
    let unblockAfter := tc.1 + (30 + (tc.2 : ℤ) * 10) * 60
    if now > unblockAfter then (false, eraseKey bl domain)
    else (true, bl)

/-- `ScraperService._mark_blocked` (lines 115-123): increment the counter of
an existing record keeping its first block time, or start a fresh record at
`(now, 1)`. -/
def markBlocked (bl : List (String × ℤ × ℕ)) (now : ℤ)
    (domain : String) : List (String × ℤ × ℕ) :=
  match lookupD bl domain with
  | some tc => setKey bl domain (tc.1, tc.2 + 1)
  | none => setKey bl domain (now, 1)

/-- Outcome of one `session.get` as `_make_request` discriminates it:
a usable response, a 403, a 429, or anything that raises
`RequestException` (network errors and, via `raise_for_status`, the
remaining 4xx/5xx statuses). -/
inductive FetchOutcome where
  | ok (html : String)
  | forbidden
  | rateLimited
  | failed
deriving DecidableEq

/-- The mutable fields of `ScraperService` that `_make_request` touches. -/
structure FetchState where
  blockedDomains : List (String × ℤ × ℕ)
  cache : List (String × CacheEntry)
  requestCount : ℕ
deriving DecidableEq

/-- The retry loop of `_make_request` (lines 174-225), with `remaining`
attempts left and `attempt` the 0-based index of the next one.  Each
iteration issues one network request (counted in the third component of the
result); sleeps are irrelevant to the claims and are not modelled.  A 403 or
429 marks the domain blocked and stops; an exception retries unless this was
the last attempt, in which case it marks the domain blocked; the loop
falling through returns `None`. -/
def attemptLoop (now : ℤ) (u : Url) (oracle : ℕ → FetchOutcome) :
    ℕ → ℕ → FetchState → ℕ → Option String × FetchState × ℕ
  | 0, _, st, calls => (none, st, calls)
  | remaining + 1, attempt, st, calls =>
    let st := { st with requestCount := st.requestCount + 1 }
    let calls := calls + 1
    match oracle attempt with
    | .ok html =>
      (some html, { st with cache := cacheResponse st.cache now u.full html }, calls)
    | .forbidden =>
      (none, { st with blockedDomains := markBlocked st.blockedDomains now u.domain }, calls)
    | .rateLimited =>
      (none, { st with blockedDomains := markBlocked st.blockedDomains now u.domain }, calls)
    | .failed =>
      if remaining = 0 then
        (none, { st with blockedDomains := markBlocked st.blockedDomains now u.domain }, calls)
      else attemptLoop now u oracle remaining (attempt + 1) st calls

/-- `ScraperService._make_request` (scraper_service.py lines 159-226).
Returns the parsed document (or `None`), the updated service state, and the
number of network requests issued. -/
def make_request (st : FetchState) (now : ℤ) (u : Url)
    (oracle : ℕ → FetchOutcome) (retries : ℕ) (useCache : Bool) :
    Option String × FetchState × ℕ :=
  let ib := isBlockedCheck st.blockedDomains now u.domain
  let st1 := { st with blockedDomains := ib.2 }
  if ib.1 then
    let gc := getCachedResponse st1.cache now u.full
    (gc.1, { st1 with cache := gc.2 }, 0)
  else if useCache then
    let gc := getCachedResponse st1.cache now u.full
    match gc.1 with
    | some html => (some html, { st1 with cache := gc.2 }, 0)
    | none => attemptLoop now u oracle retries 0 { st1 with cache := gc.2 } 0
  else
    attemptLoop now u oracle retries 0 st1 0

/-! ## Scrape orchestrator (`scrape_all_sources`, scraper_service.py lines 324-371) -/

/-- The dedup key: `lead.get('company_name', '').lower()`. -/
def leadKey (l : RawLead) : List Char := lowerL (l.company_name.getD "").data

/-- The dedup pass of `scrape_all_sources` (lines 362-367): an
insertion-ordered dict keyed by lowercased company name, keeping the first
occurrence and dropping leads with an empty key; rendered recursively with
the set of already-seen keys. -/
def dedupByName : List RawLead → List (List Char) → List RawLead
  | [], _ => []
  | l :: ls, seen =>
    let k := leadKey l
    if k = [] ∨ k ∈ seen then dedupByName ls seen
    else l :: dedupByName ls (k :: seen)

/-- The source loop of `scrape_all_sources` (lines 342-360): each source
either raises (caught and skipped, `none`) or returns a list of leads that is
appended; once the accumulator reaches `max_results` the loop breaks. -/
def collectSources (maxr : ℕ) : List (Option (List RawLead)) → List RawLead → List RawLead
  | [], acc => acc
  | r :: rs, acc =>
    if maxr ≤ acc.length then acc
    else
      match r with
      | none => collectSources maxr rs acc
      | some ls => collectSources maxr rs (acc ++ ls)

/-- `ScraperService.scrape_all_sources` (lines 324-371) given the outcomes of
the configured sources in priority order: collect, deduplicate by normalized
company name, truncate to `max_results`. -/
def scrape_all_sources (sourceResults : List (Option (List RawLead))) (maxr : ℕ) :
    List RawLead :=
  (dedupByName (collectSources maxr sourceResults []) []).take maxr

/-! ## Source-scraper quota prologues (claim C10)

Each scraper computes `results_per_query = max(floor, max_results //
(len(keywords) * len(locations)))` before its keyword × location loop;
Python's `//` raises `ZeroDivisionError` on a zero divisor.  The loops
themselves are embedded with the fetch-and-parse of one keyword/location
pair as an oracle returning the listings parsed from the page (`none` when
the request came back empty); each result's second component counts the
fetches attempted. -/

/-- Python `max(floor, maxr // d)`, raising on `d = 0`. -/
def pyQuota (floorC maxr d : ℕ) : Except String ℕ :=
  if d = 0 then Except.error "ZeroDivisionError"
  else Except.ok (max floorC (maxr / d))

/-- Inner (location) loop of `scrape_google_maps` (lines 405-462): break when
the accumulator reaches `max_results`, else fetch and append up to
`results_per_query` parsed listings. -/
def gmLocLoop (fetch : String → String → Option (List RawLead)) (q maxr : ℕ)
    (keyword : String) : List String → List RawLead → ℕ → List RawLead × ℕ
  | [], leads, calls => (leads, calls)
  | loc :: rest, leads, calls =>
    if maxr ≤ leads.length then (leads, calls)
    else
      match fetch keyword loc with
      | none => gmLocLoop fetch q maxr keyword rest leads (calls + 1)
      | some listings =>
        gmLocLoop fetch q maxr keyword rest (leads ++ listings.take q) (calls + 1)

/-- Outer (keyword) loop of `scrape_google_maps`. -/
def gmKwLoop (fetch : String → String → Option (List RawLead)) (q maxr : ℕ) :
    List String → List String → List RawLead → ℕ → List RawLead × ℕ
  | [], _, leads, calls => (leads, calls)
  | kw :: rest, locs, leads, calls =>
    let r := gmLocLoop fetch q maxr kw locs leads calls
    gmKwLoop fetch q maxr rest locs r.1 r.2

/-- `ScraperService.scrape_google_maps` (scraper_service.py lines 394-465):
quota with floor 5, keyword × location loop, final truncation. -/
def scrape_google_maps (keywords locations : List String) (maxr : ℕ)
    (fetch : String → String → Option (List RawLead)) :
    Except String (List RawLead) × ℕ :=
  match pyQuota 5 maxr (keywords.length * locations.length) with
  | Except.error e => (Except.error e, 0)
  | Except.ok q =>
    let r := gmKwLoop fetch q maxr keywords locations [] 0
    (Except.ok (r.1.take maxr), r.2)

/-- Inner loop of `scrape_yellow_pages` (lines 529-612): the per-pair check
`_is_blocked('yellowpages.com.au')` is abstracted as the constant verdict
`blocked` (a `continue`, issuing no fetch). -/
def ypLocLoop (fetch : String → String → Option (List RawLead)) (q maxr : ℕ)
    (blocked : Bool) (keyword : String) :
    List String → List RawLead → ℕ → List RawLead × ℕ
  | [], leads, calls => (leads, calls)
  | loc :: rest, leads, calls =>
    if maxr ≤ leads.length then (leads, calls)
    else if blocked then ypLocLoop fetch q maxr blocked keyword rest leads calls
    else
      match fetch keyword loc with
      | none => ypLocLoop fetch q maxr blocked keyword rest leads (calls + 1)
      | some listings =>
        ypLocLoop fetch q maxr blocked keyword rest (leads ++ listings.take q) (calls + 1)

/-- Outer loop of `scrape_yellow_pages`. -/
def ypKwLoop (fetch : String → String → Option (List RawLead)) (q maxr : ℕ)
    (blocked : Bool) : List String → List String → List RawLead → ℕ → List RawLead × ℕ
  | [], _, leads, calls => (leads, calls)
  | kw :: rest, locs, leads, calls =>
    let r := ypLocLoop fetch q maxr blocked kw locs leads calls
    ypKwLoop fetch q maxr blocked rest locs r.1 r.2

/-- `ScraperService.scrape_yellow_pages` (scraper_service.py lines 518-615):
quota with floor 5, loop, final truncation. -/
def scrape_yellow_pages (keywords locations : List String) (maxr : ℕ)
    (blocked : Bool) (fetch : String → String → Option (List RawLead)) :
    Except String (List RawLead) × ℕ :=
  match pyQuota 5 maxr (keywords.length * locations.length) with
  | Except.error e => (Except.error e, 0)
  | Except.ok q =>
    let r := ypKwLoop fetch q maxr blocked keywords locations [] 0
    (Except.ok (r.1.take maxr), r.2)

/-- `ScraperService._scrape_hotfrog` (scraper_service.py lines 654-729):
quota with floor 3; same loop shape as Google Maps but no final truncation. -/
def scrape_hotfrog (keywords locations : List String) (maxr : ℕ)
    (fetch : String → String → Option (List RawLead)) :
    Except String (List RawLead) × ℕ :=
  match pyQuota 3 maxr (keywords.length * locations.length) with
  | Except.error e => (Except.error e, 0)
  | Except.ok q =>
    let r := gmKwLoop fetch q maxr keywords locations [] 0
    (Except.ok r.1, r.2)

/-- Inner loop of `WebScraper.search_and_scrape` (web_scraper.py lines
589-654): an unsupported search engine is a `continue` issuing no fetch. -/
def sasLocLoop (fetch : String → String → Option (List RawLead)) (q maxr : ℕ)
    (engineOk : Bool) (keyword : String) :
    List String → List RawLead → ℕ → List RawLead × ℕ
  | [], leads, calls => (leads, calls)
  | loc :: rest, leads, calls =>
    if maxr ≤ leads.length then (leads, calls)
    else if !engineOk then sasLocLoop fetch q maxr engineOk keyword rest leads calls
    else
      match fetch keyword loc with
      | none => sasLocLoop fetch q maxr engineOk keyword rest leads (calls + 1)
      | some found =>
        sasLocLoop fetch q maxr engineOk keyword rest (leads ++ found.take q) (calls + 1)

/-- Outer loop of `search_and_scrape`; unlike the others it also breaks at
the keyword level once `max_results` is reached. -/
def sasKwLoop (fetch : String → String → Option (List RawLead)) (q maxr : ℕ)
    (engineOk : Bool) : List String → List String → List RawLead → ℕ → List RawLead × ℕ
  | [], _, leads, calls => (leads, calls)
  | kw :: rest, locs, leads, calls =>
    if maxr ≤ leads.length then (leads, calls)
    else
      let r := sasLocLoop fetch q maxr engineOk kw locs leads calls
      sasKwLoop fetch q maxr engineOk rest locs r.1 r.2

/-- `WebScraper.search_and_scrape` (web_scraper.py lines 563-657): quota with
floor 3, two-level loop, final truncation.  `engineOk` is whether
`search_engine.lower()` is `google` or `bing`. -/
def search_and_scrape (keywords locations : List String) (maxr : ℕ)
    (engineOk : Bool) (fetch : String → String → Option (List RawLead)) :
    Except String (List RawLead) × ℕ :=
  match pyQuota 3 maxr (keywords.length * locations.length) with
  | Except.error e => (Except.error e, 0)
  | Except.ok q =>
    let r := sasKwLoop fetch q maxr engineOk keywords locations [] 0
    (Except.ok (r.1.take maxr), r.2)

/-! ## Job manager (`scraping_job_manager.py`)

Timestamps are integer seconds; `isoformat` / `fromisoformat` form a
bijection on the datetimes the manager produces, so the serialized datetime
strings are modelled by the timestamps they encode. -/

/-- The `JobStatus` enum (scraping_job_manager.py lines 19-26). -/
inductive JobStatus where
  | pending
  | running
  | paused
  | completed
  | failed
  | cancelled
deriving DecidableEq

/-- The `.value` of each `JobStatus` member. -/
def JobStatus.value : JobStatus → String
  | .pending => "pending"
  | .running => "running"
  | .paused => "paused"
  | .completed => "completed"
  | .failed => "failed"
  | .cancelled => "cancelled"

/-- The `JobStatus(s)` constructor call: the member with value `s`, or a
`ValueError` (`none`). -/
def jobStatusOfValue (s : String) : Option JobStatus :=
  if s = "pending" then some .pending
  else if s = "running" then some .running
  else if s = "paused" then some .paused
  else if s = "completed" then some .completed
  else if s = "failed" then some .failed
  else if s = "cancelled" then some .cancelled
  else none

/-- The `ScrapingJob` dataclass (scraping_job_manager.py lines 29-64). -/
structure ScrapingJob where
  job_id : String
  status : JobStatus
  keywords : List String
  locations : List String
  sources : List String
  max_leads : ℤ
  use_ai_analysis : Bool
  ai_model : String
  total_leads_found : ℤ
  leads_processed : ℤ
  leads_validated : ℤ
  errors : List String
  created_at : ℤ
  started_at : Option ℤ
  completed_at : Option ℤ
  estimated_duration : ℤ
  leads_data : List RawLead
  export_path : Option String
  user_id : Option String
  notes : String
deriving DecidableEq

/-- The dictionary produced by `ScrapingJob.to_dict` (lines 66-88), with the
same keys and value types; the three datetime fields hold the timestamp the
isoformat string encodes (`none` for `None`). -/
structure JobDict where
  job_id : String
  status : String
  keywords : List String
  locations : List String
  sources : List String
  max_leads : ℤ
  use_ai_analysis : Bool
  ai_model : String
  total_leads_found : ℤ
  leads_processed : ℤ
  leads_validated : ℤ
  errors : List String
  created_at : Option ℤ
  started_at : Option ℤ
  completed_at : Option ℤ
  estimated_duration : ℤ
  export_path : Option String
  user_id : Option String
  notes : String
deriving DecidableEq

/-- `ScrapingJob.to_dict` (lines 66-88); `created_at` is a non-optional
datetime, hence always serialized. -/
def ScrapingJob.to_dict (j : ScrapingJob) : JobDict :=
  { job_id := j.job_id
    status := j.status.value
    keywords := j.keywords
    locations := j.locations
    sources := j.sources
    max_leads := j.max_leads
    use_ai_analysis := j.use_ai_analysis
    ai_model := j.ai_model
    total_leads_found := j.total_leads_found
    leads_processed := j.leads_processed
    leads_validated := j.leads_validated
    errors := j.errors
    created_at := some j.created_at
    started_at := j.started_at
    completed_at := j.completed_at
    estimated_duration := j.estimated_duration
    export_path := j.export_path
    user_id := j.user_id
    notes := j.notes }

/-- `ScrapingJob.from_dict` (lines 90-123): construct with the dict's values
(`JobStatus(...)` raising `ValueError` on an unknown status is `none`); the
constructor defaults `created_at` to `utcnow` (`now`), `started_at` and
`completed_at` to `None` and `leads_data` to `[]`; then each datetime field
present as a string is parsed back. -/
def ScrapingJob.from_dict (now : ℤ) (d : JobDict) : Option ScrapingJob :=
  match jobStatusOfValue d.status with
  | none => none
  | some st =>
    let j : ScrapingJob :=
      { job_id := d.job_id
        status := st
        keywords := d.keywords
        locations := d.locations
        sources := d.sources
        max_leads := d.max_leads
        use_ai_analysis := d.use_ai_analysis
        ai_model := d.ai_model
        total_leads_found := d.total_leads_found
        leads_processed := d.leads_processed
        leads_validated := d.leads_validated
        errors := d.errors
        created_at := now
        started_at := none
        completed_at := none
        estimated_duration := d.estimated_duration
        leads_data := []
        export_path := d.export_path
        user_id := d.user_id
        notes := d.notes }
    let j := match d.created_at with
      | some t => { j with created_at := t }
      | none => j
    let j := match d.started_at with
      | some t => { j with started_at := some t }
      | none => j
    let j := match d.completed_at with
      | some t => { j with completed_at := some t }
      | none => j
    some j

/-- `ScrapingJobManager.update_job_status` (lines 212-230) acting on the
looked-up job: set the status; on RUNNING set `started_at` only if unset;
on a terminal status set `completed_at`. -/
def update_job_status (job : ScrapingJob) (status : JobStatus) (now : ℤ) :
    ScrapingJob :=
  let j1 := { job with status := status }
  let j2 :=
    if status = .running ∧ j1.started_at = none then
      { j1 with started_at := some now }
    else j1
  if status = .completed ∨ status = .failed ∨ status = .cancelled then
    { j2 with completed_at := some now }
  else j2

/-! ## Concrete fixtures used by counterexamples and witnesses -/

/-- A lead with a valid company name and a syntactically invalid email. -/
def c2Lead : RawLead := { company_name := some "Acme Corp", email := some "not-an-email" }

/-- A lead whose email, phone, website and address are all present and invalid. -/
def c2wLead : RawLead :=
  { email := some "bad", phone := some "123", website := some "ftp://x", address := some "abc" }

/-- The accumulator state at 100 confidence with nothing recorded. -/
def c2wState : VState := ⟨[], [], 100, c2wLead⟩

/-- A URL on a domain that the fixture fetch state has blocked. -/
def w3Url : Url := ⟨"https://example.com/a", "example.com"⟩

/-- Fetch state with an active block on `example.com` (blocked at time 0 with
count 1, so blocked until 2400) and a cached copy of the fixture URL. -/
def w3State : FetchState :=
  ⟨[("example.com", (0, 1))], [("https://example.com/a", ⟨"cached page", 0⟩)], 0⟩

/-- An oracle whose every attempt fails (never consulted in the witness). -/
def w3Oracle : ℕ → FetchOutcome := fun _ => FetchOutcome.failed

/-- Orchestrator fixture leads: two case-insensitive duplicates and one other. -/
def w4LeadA : RawLead := { company_name := some "Acme" }

/-- Duplicate of `w4LeadA` up to case. -/
def w4LeadB : RawLead := { company_name := some "ACME" }

/-- A lead with a distinct company name. -/
def w4LeadC : RawLead := { company_name := some "Bloom" }

/-- One source returning the three fixture leads. -/
def w4Results : List (Option (List RawLead)) := [some [w4LeadA, w4LeadB, w4LeadC]]

/-- A freshly created pending job. -/
def w6Job : ScrapingJob :=
  { job_id := "j1", status := .pending, keywords := ["fragrance"],
    locations := ["Sydney"], sources := ["yellow_pages"], max_leads := 100,
    use_ai_analysis := true, ai_model := "gpt-4", total_leads_found := 0,
    leads_processed := 0, leads_validated := 0, errors := [], created_at := 0,
    started_at := none, completed_at := none, estimated_duration := 0,
    leads_data := [], export_path := none, user_id := none, notes := "" }

/-- A block table with one record: `example.com` blocked at time 1000 with
count 2, so blocked until `1000 + (30 + 20) * 60 = 4000`. -/
def w7Blocked : List (String × ℤ × ℕ) := [("example.com", (1000, 2))]

/-- A fetch-and-parse oracle that always comes back empty. -/
def w10Fetch : String → String → Option (List RawLead) := fun _ _ => none

/-! ## Helper lemmas -/

/-- Writing a key and reading it back yields the written value. -/
theorem lookupD_setKey {α : Type} (l : List (String × α)) (k : String) (v : α) :
    lookupD (setKey l k v) k = some v := by
  induction l with
  | nil => simp [setKey, lookupD]
  | cons p rest ih =>
    obtain ⟨k', v'⟩ := p
    by_cases h : k' = k
    · subst h
      simp [setKey, lookupD]
    · simp only [setKey, if_neg h]
      unfold lookupD at ih ⊢
      rw [List.find?_cons_of_neg _ (by simp [h])]
      exact ih

/-- Deleting a key makes its lookup miss. -/
theorem lookupD_eraseKey {α : Type} (l : List (String × α)) (k : String) :
    lookupD (eraseKey l k) k = none := by
  unfold lookupD eraseKey
  rw [Option.map_eq_none', List.find?_eq_none]
  intro p hp
  have h := (List.mem_filter.mp hp).2
  simp only [bne_iff_ne, ne_eq] at h
  simp [h]

/-- Every lead kept by the dedup pass has a nonempty key outside `seen`, and
is the first lead of the input with its key. -/
theorem dedupByName_mem (ls : List RawLead) :
    ∀ (seen : List (List Char)) (l : RawLead), l ∈ dedupByName ls seen →
      leadKey l ∉ seen ∧ leadKey l ≠ [] ∧
        ls.find? (fun x => leadKey x == leadKey l) = some l := by
  induction ls with
  | nil => intro seen l h; simp [dedupByName] at h
  | cons l1 ls ih =>
    intro seen l h
    by_cases hk : leadKey l1 = [] ∨ leadKey l1 ∈ seen
    · rw [dedupByName, if_pos hk] at h
      obtain ⟨h1, h2, h3⟩ := ih seen l h
      have hne : leadKey l1 ≠ leadKey l := by
        rcases hk with hk | hk
        · rw [hk]; exact fun he => h2 he.symm
        · exact fun he => h1 (he ▸ hk)
      refine ⟨h1, h2, ?_⟩
      simpa [List.find?, beq_eq_false_iff_ne.mpr hne] using h3
    · rw [dedupByName, if_neg hk] at h
      push_neg at hk
      rcases List.mem_cons.mp h with rfl | hmem
      · exact ⟨hk.2, hk.1, by simp [List.find?]⟩
      · obtain ⟨h1, h2, h3⟩ := ih (leadKey l1 :: seen) l hmem
        have hne : leadKey l1 ≠ leadKey l :=
          fun he => h1 (he ▸ List.mem_cons_self _ _)
        refine ⟨fun hs => h1 (List.mem_cons_of_mem _ hs), h2, ?_⟩
        simpa [List.find?, beq_eq_false_iff_ne.mpr hne] using h3

/-- The dedup pass produces pairwise-distinct keys. -/
theorem dedupByName_pairwise (ls : List RawLead) :
    ∀ seen : List (List Char),
      (dedupByName ls seen).Pairwise (fun a b => leadKey a ≠ leadKey b) := by
  induction ls with
  | nil => intro seen; simp [dedupByName]
  | cons l1 ls ih =>
    intro seen
    by_cases hk : leadKey l1 = [] ∨ leadKey l1 ∈ seen
    · rw [dedupByName, if_pos hk]; exact ih seen
    · rw [dedupByName, if_neg hk]
      refine List.Pairwise.cons ?_ (ih _)
      intro b hb
      have := (dedupByName_mem ls (leadKey l1 :: seen) b hb).1
      exact fun he => this (he ▸ List.mem_cons_self _ _)

/-! ## Claim C1 -/

/-- Claim C1 (code bug): the staleness test of `_get_cached_response` compares
the `seconds` component of the age — always below 86400 — against 86400, so it
never fires: no entry is ever evicted, and in particular an entry written
90000 seconds (25 hours) before the read is returned as fresh and kept,
where the spec demands a miss and an eviction. -/
theorem claim_C1_stale_cache_returned :
    (∀ now mtime : ℤ, ¬ (pyDeltaSeconds now mtime > 86400)) ∧
    getCachedResponse [("https://example.com/a", (⟨"stale page", 0⟩ : CacheEntry))]
        90000 "https://example.com/a" =
      (some "stale page", [("https://example.com/a", (⟨"stale page", 0⟩ : CacheEntry))]) ∧
    (90000 : ℤ) - 0 > 86400 := by
  refine ⟨?_, by decide, by norm_num⟩
  intro now mtime
  have h := Int.emod_lt_of_pos (now - mtime) (by norm_num : (0 : ℤ) < 86400)
  unfold pyDeltaSeconds
  omega

/-! ## Claim C7 -/

/-- Claim C7: a blocked-domain record `(t, c)` keeps the domain blocked
exactly while `now ≤ t + (30 + c*10) minutes`; once past, the next check
deletes the record and reports unblocked; `_mark_blocked` increments an
existing record keeping its first block time, and otherwise starts at
`(now, 1)`. -/
theorem claim_C7_block_window :
    (∀ (bl : List (String × ℤ × ℕ)) (now : ℤ) (d : String) (t : ℤ) (c : ℕ),
      lookupD bl d = some (t, c) →
        (now ≤ t + (30 + (c : ℤ) * 10) * 60 → isBlockedCheck bl now d = (true, bl)) ∧
        (now > t + (30 + (c : ℤ) * 10) * 60 →
          isBlockedCheck bl now d = (false, eraseKey bl d) ∧
            lookupD (eraseKey bl d) d = none)) ∧
    (∀ (bl : List (String × ℤ × ℕ)) (now : ℤ) (d : String),
      lookupD bl d = none → isBlockedCheck bl now d = (false, bl)) ∧
    (∀ (bl : List (String × ℤ × ℕ)) (now : ℤ) (d : String) (t : ℤ) (c : ℕ),
      lookupD bl d = some (t, c) →
        lookupD (markBlocked bl now d) d = some (t, c + 1)) ∧
    (∀ (bl : List (String × ℤ × ℕ)) (now : ℤ) (d : String),
      lookupD bl d = none → lookupD (markBlocked bl now d) d = some (now, 1)) := by
  refine ⟨?_, ?_, ?_, ?_⟩
  · intro bl now d t c h
    constructor
    · intro hle
      rw [isBlockedCheck, h]
      simp only []
      rw [if_neg (by omega)]
    · intro hgt
      rw [isBlockedCheck, h]
      simp only []
      rw [if_pos (by omega)]
      exact ⟨rfl, lookupD_eraseKey bl d⟩
  · intro bl now d h
    rw [isBlockedCheck, h]
  · intro bl now d t c h
    rw [markBlocked, h]
    exact lookupD_setKey bl d (t, c + 1)
  · intro bl now d h
    rw [markBlocked, h]
    exact lookupD_setKey bl d (now, 1)

/-- Witness for C7 at a concrete table: with `example.com` blocked at 1000 at
count 2, time 2000 is still inside the window, and re-marking increments the
counter without touching the first block time. -/
theorem claim_C7_witness :
    isBlockedCheck w7Blocked 2000 "example.com" = (true, w7Blocked) ∧
    lookupD (markBlocked w7Blocked 0 "example.com") "example.com" = some (1000, 3) :=
  ⟨(claim_C7_block_window.1 w7Blocked 2000 "example.com" 1000 2 (by decide)).1 (by decide),
   claim_C7_block_window.2.2.1 w7Blocked 0 "example.com" 1000 2 (by decide)⟩

/-! ## Claim C3 -/

/-- Claim C3: when the URL's domain is currently reported blocked,
`_make_request` issues zero network requests and resolves to exactly the
cache lookup for that URL (the cached document or nothing). -/
theorem claim_C3_blocked_no_network (st : FetchState) (now : ℤ) (u : Url)
    (oracle : ℕ → FetchOutcome) (retries : ℕ) (useCache : Bool)
    (h : (isBlockedCheck st.blockedDomains now u.domain).1 = true) :
    (make_request st now u oracle retries useCache).2.2 = 0 ∧
    (make_request st now u oracle retries useCache).1 =
      (getCachedResponse st.cache now u.full).1 := by
  rw [make_request]
  simp [h]

/-- Witness for C3: at the fixture state the domain is blocked, no request is
issued, and the result is the cache lookup (here: the cached page). -/
theorem claim_C3_witness :
    (make_request w3State 60 w3Url w3Oracle 3 true).2.2 = 0 ∧
    (make_request w3State 60 w3Url w3Oracle 3 true).1 =
      (getCachedResponse w3State.cache 60 w3Url.full).1 :=
  claim_C3_blocked_no_network w3State 60 w3Url w3Oracle 3 true (by decide)

/-! ## Claim C4 -/

/-- Claim C4: for any source outcomes, `scrape_all_sources` returns at most
`max_results` leads, no two of which share a case-insensitive company name,
and every returned lead is the first lead with its normalized name among all
leads the sources produced (so the kept duplicate comes from the
highest-priority source). -/
theorem claim_C4_dedup_cap (rs : List (Option (List RawLead))) (maxr : ℕ) :
    (scrape_all_sources rs maxr).length ≤ maxr ∧
    (scrape_all_sources rs maxr).Pairwise (fun a b => leadKey a ≠ leadKey b) ∧
    ∀ l ∈ scrape_all_sources rs maxr,
      (collectSources maxr rs []).find? (fun x => leadKey x == leadKey l) = some l := by
  refine ⟨?_, ?_, ?_⟩
  · exact List.length_take_le maxr _
  · exact (dedupByName_pairwise _ []).sublist (List.take_sublist maxr _)
  · intro l hl
    exact (dedupByName_mem (collectSources maxr rs []) [] l
      (List.mem_of_mem_take hl)).2.2

/-- Witness for C4: one source yields `Acme`, `ACME`, `Bloom`; the leads
`Acme` and `Bloom` are kept (the case-insensitive duplicate dropped), each
being the first occurrence of its normalized name. -/
theorem claim_C4_witness :
    (scrape_all_sources w4Results 2).length ≤ 2 ∧
    (collectSources 2 w4Results []).find? (fun x => leadKey x == leadKey w4LeadA) =
      some w4LeadA :=
  ⟨(claim_C4_dedup_cap w4Results 2).1,
   (claim_C4_dedup_cap w4Results 2).2.2 w4LeadA (by decide)⟩

/-! ## Claim C5 -/

/-- Claim C5: for every input lead, the validation result's confidence lies in
`[0, 100]`, and `is_valid` holds iff the error list is empty and the
confidence exceeds 30. -/
theorem claim_C5_validation_invariant (lead : RawLead) :
    (0 ≤ (validate_lead lead).confidence ∧ (validate_lead lead).confidence ≤ 100) ∧
    ((validate_lead lead).is_valid = true ↔
      ((validate_lead lead).errors = [] ∧ 30 < (validate_lead lead).confidence)) := by
  unfold validate_lead
  generalize validateLeadCore lead = st
  unfold finalizeV
  refine ⟨⟨le_max_left 0 _, max_le (by norm_num) (min_le_left _ _)⟩, ?_⟩
  simp [List.isEmpty_iff]

/-! ## Claim C9 -/

/-- Claim C9: `validate_email` classifies its input exactly as the spec's
ordered description (`emailSpecDescription`) says: regex failure is invalid at
confidence 0, placeholder prefixes give 0.5, free-mail domains 0.6, any other
dotted domain 0.95, and the residual valid case 0.8; in particular
`user@gmail.com` is valid with confidence 0.6, strictly between 0 and 0.8,
and `not-an-email` is invalid with confidence 0. -/
theorem claim_C9_email_classification :
    (∀ e, validate_email e = emailSpecDescription e) ∧
    validate_email "not-an-email" = (false, 0) ∧
    validate_email "user@gmail.com" = (true, 3/5) ∧
    (0 : ℚ) < 3/5 ∧ (3 : ℚ)/5 < 4/5 := by
  refine ⟨?_, rfl, rfl, by norm_num, by norm_num⟩
  intro e
  by_cases h : e = ""
  · subst h; rfl
  · rw [validate_email, emailSpecDescription, if_neg h]

/-! ## Claim C2 -/

/-- Counterexample to claim C2 as stated: a present-but-invalid email is
recorded as a *blocking error*, not a warning — `validate_lead` on a lead
with a valid company name and the email `not-an-email` produces a nonempty
error list naming the email, and the lead is rejected. -/
theorem claim_C2_counterexample :
    (validate_lead c2Lead).errors = ["Invalid email: not-an-email"] ∧
    (validate_lead c2Lead).cleaned_data.email = none ∧
    (validate_lead c2Lead).is_valid = false := by
  refine ⟨rfl, rfl, ?_⟩
  rfl

/-- Claim C2 as amended: an invalid present email is recorded as a blocking
error (message appended to `errors`, field nulled, confidence ×0.7); an
invalid present phone is a non-blocking warning (×0.8, field nulled); an
invalid present website or address is a non-blocking warning (×0.85, field
nulled); and the phone, website and address blocks never touch the error
list. -/
theorem claim_C2_amended_penalties :
    (∀ (lead : RawLead) (st : VState), truthy lead.email = true →
      (validate_email (strOf lead.email)).1 = false →
        emailStep lead st =
          { st with errors := st.errors ++ ["Invalid email: " ++ strOf lead.email],
                    cleaned := { st.cleaned with email := none },
                    confidence := st.confidence * (7/10) }) ∧
    (∀ (lead : RawLead) (st : VState), truthy lead.phone = true →
      (validate_phone (strOf lead.phone)).1 = false →
        phoneStep lead st =
          { st with warnings := st.warnings ++ ["Invalid phone: " ++ strOf lead.phone],
                    cleaned := { st.cleaned with phone := none },
                    confidence := st.confidence * (4/5) }) ∧
    (∀ (lead : RawLead) (st : VState), truthy lead.website = true →
      (validate_website (strOf lead.website)).1 = false →
        websiteStep lead st =
          { st with warnings := st.warnings ++ ["Invalid website: " ++ strOf lead.website],
                    cleaned := { st.cleaned with website := none },
                    confidence := st.confidence * (17/20) }) ∧
    (∀ (lead : RawLead) (st : VState), truthy lead.address = true →
      (validate_address (strOf lead.address)).1 = false →
        addressStep lead st =
          { st with warnings := st.warnings ++ ["Invalid address: " ++ strOf lead.address],
                    cleaned := { st.cleaned with address := none },
                    confidence := st.confidence * (17/20) }) ∧
    (∀ (lead : RawLead) (st : VState),
      (phoneStep lead st).errors = st.errors ∧
      (websiteStep lead st).errors = st.errors ∧
      (addressStep lead st).errors = st.errors) := by
  refine ⟨?_, ?_, ?_, ?_, ?_⟩
  · intro lead st h1 h2
    simp [emailStep, h1, h2]
  · intro lead st h1 h2
    simp [phoneStep, h1, h2]
  · intro lead st h1 h2
    simp [websiteStep, h1, h2]
  · intro lead st h1 h2
    simp [addressStep, h1, h2]
  · intro lead st
    refine ⟨?_, ?_, ?_⟩
    · by_cases h : truthy lead.phone
      · by_cases h2 : (validate_phone (strOf lead.phone)).1 <;> simp [phoneStep, h, h2]
      · simp [phoneStep, h]
    · by_cases h : truthy lead.website
      · by_cases h2 : (validate_website (strOf lead.website)).1 <;> simp [websiteStep, h, h2]
      · simp [websiteStep, h]
    · by_cases h : truthy lead.address
      · by_cases h2 : (validate_address (strOf lead.address)).1 <;> simp [addressStep, h, h2]
      · simp [addressStep, h]

/-- Witness for the amended C2 at a lead whose email and phone are both
present and invalid. -/
theorem claim_C2_witness :
    emailStep c2wLead c2wState =
      { c2wState with
          errors := c2wState.errors ++ ["Invalid email: " ++ strOf c2wLead.email],
          cleaned := { c2wState.cleaned with email := none },
          confidence := c2wState.confidence * (7/10) } ∧
    phoneStep c2wLead c2wState =
      { c2wState with
          warnings := c2wState.warnings ++ ["Invalid phone: " ++ strOf c2wLead.phone],
          cleaned := { c2wState.cleaned with phone := none },
          confidence := c2wState.confidence * (4/5) } :=
  ⟨claim_C2_amended_penalties.1 c2wLead c2wState (by decide) rfl,
   claim_C2_amended_penalties.2.1 c2wLead c2wState (by decide) rfl⟩

/-! ## Claim C6 -/

/-- Claim C6: updating a job whose `started_at` is unset to RUNNING stamps
`started_at`; a later RUNNING update leaves the stamp unchanged; and every
transition into COMPLETED, FAILED or CANCELLED stamps `completed_at`. -/
theorem claim_C6_status_timestamps :
    (∀ (job : ScrapingJob) (now : ℤ), job.started_at = none →
      (update_job_status job .running now).started_at = some now) ∧
    (∀ (job : ScrapingJob) (now t : ℤ), job.started_at = some t →
      (update_job_status job .running now).started_at = some t) ∧
    (∀ (job : ScrapingJob) (now : ℤ) (s : JobStatus),
      s = .completed ∨ s = .failed ∨ s = .cancelled →
      (update_job_status job s now).completed_at = some now) := by
  refine ⟨?_, ?_, ?_⟩
  · intro job now h
    simp [update_job_status, h]
  · intro job now t h
    simp [update_job_status, h]
  · intro job now s h
    rcases h with rfl | rfl | rfl <;> simp [update_job_status]

/-- Witness for C6 on a fresh pending job: the first RUNNING update stamps
`started_at := 5`, a second RUNNING update at time 9 keeps it at 5, and a
COMPLETED update stamps `completed_at`. -/
theorem claim_C6_witness :
    (update_job_status w6Job .running 5).started_at = some 5 ∧
    (update_job_status (update_job_status w6Job .running 5) .running 9).started_at = some 5 ∧
    (update_job_status w6Job .completed 7).completed_at = some 7 :=
  ⟨claim_C6_status_timestamps.1 w6Job 5 rfl,
   claim_C6_status_timestamps.2.1 (update_job_status w6Job .running 5) 9 5 rfl,
   claim_C6_status_timestamps.2.2 w6Job 7 .completed (Or.inl rfl)⟩

/-! ## Claim C8 -/

/-- Claim C8: `from_dict ∘ to_dict` succeeds on every job and reproduces its
identity, parameters, status and progress counters. -/
theorem claim_C8_roundtrip (job : ScrapingJob) (now : ℤ) :
    ∃ j, ScrapingJob.from_dict now (ScrapingJob.to_dict job) = some j ∧
      j.job_id = job.job_id ∧ j.keywords = job.keywords ∧
      j.locations = job.locations ∧ j.sources = job.sources ∧
      j.status = job.status ∧ j.max_leads = job.max_leads ∧
      j.total_leads_found = job.total_leads_found ∧
      j.leads_processed = job.leads_processed ∧
      j.leads_validated = job.leads_validated := by
  obtain ⟨id, st, kw, loc, src, ml, ai, am, tf, lp, lv, er, ca, sa, co, ed, ld, ep, ui, no⟩ := job
  cases st <;> cases sa <;> cases co <;>
    exact ⟨_, rfl, rfl, rfl, rfl, rfl, rfl, rfl, rfl, rfl, rfl⟩

/-! ## Claim C10 -/

/-- Claim C10: each scraper that computes the per-pair quota
`max_results // (len(keywords) * len(locations))` before iterating raises
`ZeroDivisionError` — before any fetch is attempted — whenever the keyword
list or the location list is empty. -/
theorem claim_C10_empty_input_division (keywords locations : List String)
    (maxr : ℕ) (f1 f2 f3 f4 : String → String → Option (List RawLead))
    (blocked engineOk : Bool)
    (h : keywords = [] ∨ locations = []) :
    scrape_google_maps keywords locations maxr f1 =
      (Except.error "ZeroDivisionError", 0) ∧
    scrape_yellow_pages keywords locations maxr blocked f2 =
      (Except.error "ZeroDivisionError", 0) ∧
    scrape_hotfrog keywords locations maxr f3 =
      (Except.error "ZeroDivisionError", 0) ∧
    search_and_scrape keywords locations maxr engineOk f4 =
      (Except.error "ZeroDivisionError", 0) := by
  have hz : keywords.length * locations.length = 0 := by
    rcases h with rfl | rfl <;> simp
  refine ⟨?_, ?_, ?_, ?_⟩ <;>
    simp [scrape_google_maps, scrape_yellow_pages, scrape_hotfrog,
      search_and_scrape, pyQuota, hz]

/-- Witness for C10 with an empty keyword list: all four scrapers fail with
the division error and zero fetches. -/
theorem claim_C10_witness :
    scrape_google_maps [] ["Sydney"] 10 w10Fetch =
      (Except.error "ZeroDivisionError", 0) ∧
    scrape_yellow_pages [] ["Sydney"] 10 false w10Fetch =
      (Except.error "ZeroDivisionError", 0) ∧
    scrape_hotfrog [] ["Sydney"] 10 w10Fetch =
      (Except.error "ZeroDivisionError", 0) ∧
    search_and_scrape [] ["Sydney"] 10 true w10Fetch =
      (Except.error "ZeroDivisionError", 0) :=
  claim_C10_empty_input_division [] ["Sydney"] 10 w10Fetch w10Fetch w10Fetch
    w10Fetch false true (Or.inl rfl)
